import Mathlib

/-!
Shallow embedding of the deployment risk assessment engine
(`scripts/ai-agents/deployment-decision.py`, class `AIDeploymentEngine`).

Python floats are modelled as rationals, Python strings as Lean strings
(compared through their character lists), and each fallible operation
(subprocess call, file read) as an `Except` value supplied as input.
-/

namespace DeploymentDecision

/-- Lower-case a string character-wise, modelling Python `str.lower()`. -/
def strLower (s : String) : String :=
  ⟨s.data.map Char.toLower⟩

/-- Does `needle` occur as a contiguous run inside the character list?
Models Python `needle in hay` for the character-list view. -/
def infixMatch (needle : List Char) : List Char → Bool
  | [] => needle.isEmpty
  | c :: rest => needle.isPrefixOf (c :: rest) || infixMatch needle rest

/-- Python `needle in hay` on strings. -/
def strContains (hay needle : String) : Bool :=
  infixMatch needle.data hay.data

/-- Python `s.endswith(pat)`. -/
def strEndsWith (s pat : String) : Bool :=
  pat.data.isSuffixOf s.data

/-- Python `s.startswith(pat)`. -/
def strStartsWith (s pat : String) : Bool :=
  pat.data.isPrefixOf s.data

/-- Python `content.count(needle)`: number of non-overlapping occurrences,
scanning left to right and skipping past each match. -/
def countOccs (needle : List Char) : List Char → Nat
  | [] => 0
  | c :: rest =>
    if needle.isPrefixOf (c :: rest) then
      1 + countOccs needle (rest.drop (needle.length - 1))
    else
      countOccs needle rest
termination_by hay => hay.length
decreasing_by
  · simp only [List.length_drop, List.length_cons]
    omega
  · simp only [List.length_cons]
    omega

/-- The five named risk factor scores (`self.risk_factors` dict). -/
structure RiskFactors where
  code_complexity : ℚ
  dependency_changes : ℚ
  test_coverage : ℚ
  performance_impact : ℚ
  historical_failures : ℚ
deriving DecidableEq

/-- The structured verdict (the JSON object the engine produces or parses). -/
structure RiskAssessment where
  overall_risk_score : ℚ
  risk_level : String
  recommended_strategy : String
  key_concerns : List String
  mitigation_steps : List String
  confidence : ℚ
deriving DecidableEq

/-- One entry of the persisted deployment history.  Records written by this
engine carry exactly the keys `timestamp`, `risk_score`, `strategy`,
`risk_factors`, `assessment`; the optional `status` field models the
`d.get('status')` lookup, which may find a key only in externally written
records (`none` = key absent). -/
structure DeploymentRecord where
  timestamp : ℚ
  risk_score : ℚ
  strategy : String
  risk_factors : RiskFactors
  assessment : RiskAssessment
  status : Option String
deriving DecidableEq

/-- Python-source complexity indicator tokens (`analyze_code_complexity`). -/
def py_indicators : List String :=
  ["if ", "for ", "while ", "try:", "except:", "class ", "def "]

/-- JS/TS complexity indicator tokens (`analyze_code_complexity`). -/
def js_indicators : List String :=
  ["if (", "for (", "while (", "function ", "class ", "=>", "try \x7b"]

/-- Sum of `content.count(p)` over the indicator list. -/
def sumCounts (pats : List String) (content : String) : Nat :=
  pats.foldl (fun acc p => acc + countOccs p.data content.data) 0

/-- Body of `analyze_code_complexity` after the changed-file list is known:
per changed file, count control-structure tokens in its contents (a failed
read contributes nothing, via the inner try/except-pass), then normalise
`min(score / 100, 1.0)`. -/
def analyze_code_complexity_core (files : List String)
    (readF : String → Except Unit String) : ℚ :=
  let score : Nat := files.foldl (fun acc f =>
    if strEndsWith f ".py" then
      acc + (match readF f with
             | .ok content => sumCounts py_indicators content
             | .error _ => 0)
    else if strEndsWith f ".js" || strEndsWith f ".ts" then
      acc + (match readF f with
             | .ok content => sumCounts js_indicators content
             | .error _ => 0)
    else acc) 0
  min ((score : ℚ) / 100) 1

/-- `analyze_code_complexity`: `nameOnly` is the result of
`git diff --name-only HEAD~1` (`.error` when the subprocess raises); any
such failure is caught and yields the default 0.5. -/
def analyze_code_complexity (nameOnly : Except Unit String)
    (readF : String → Except Unit String) : ℚ :=
  match nameOnly with
  | .error _ => 1/2
  | .ok out => analyze_code_complexity_core (out.trim.splitOn "\n") readF

/-- Manifest filenames checked by `check_dependency_changes`. -/
def high_risk_files : List String :=
  ["package.json", "requirements.txt", "Cargo.toml", "go.mod", "pom.xml"]

/-- Loose version-range markers checked by `check_dependency_changes`. -/
def version_markers : List String := ["\"^", "~", ">=", ".*"]

/-- `check_dependency_changes`: +0.3 per manifest filename occurring in the
diff text, +0.2 if any version marker occurs, capped at 1.0; subprocess
failure yields the default 0.0. -/
def check_dependency_changes (diff : Except Unit String) : ℚ :=
  match diff with
  | .error _ => 0
  | .ok d =>
    let base := high_risk_files.foldl
      (fun acc f => if strContains d f then acc + 3/10 else acc) (0 : ℚ)
    let risk := if version_markers.any (fun m => strContains d m)
                then base + 2/10 else base
    min risk 1

/-- A changed path is test-like when its lower-cased form contains
`test` or `spec` (`evaluate_test_coverage`). -/
def isTestLike (f : String) : Bool :=
  strContains (strLower f) "test" || strContains (strLower f) "spec"

/-- Known source extensions used by `evaluate_test_coverage`. -/
def hasSourceExt (f : String) : Bool :=
  strEndsWith f ".py" || strEndsWith f ".js" || strEndsWith f ".ts"

/-- Body of `evaluate_test_coverage` on the split file list: partition into
test-like and source-like, 0.0 with no source files, else
`max(0, 1 - len(test)/len(source))`. -/
def evaluate_test_coverage_core (files : List String) : ℚ :=
  let test_files := files.filter (fun f => isTestLike f)
  let source_files := files.filter (fun f => !(isTestLike f) && hasSourceExt f)
  if source_files.isEmpty then 0
  else max 0 (1 - (test_files.length : ℚ) / (source_files.length : ℚ))

/-- `evaluate_test_coverage`: subprocess failure is caught and yields the
default 0.5; note the raw output is split without stripping. -/
def evaluate_test_coverage (nameOnly : Except Unit String) : ℚ :=
  match nameOnly with
  | .error _ => 1/2
  | .ok out => evaluate_test_coverage_core (out.splitOn "\n")

/-- Performance-sensitive keywords of `assess_performance_impact`. -/
def performance_keywords : List String :=
  ["database", "query", "loop", "recursive", "async", "await",
   "promise", "timeout", "cache", "memory", "cpu", "optimization"]

/-- Body of `assess_performance_impact` on the diff text: +0.1 per keyword
present (case-insensitive), +0.3 / +0.2 line-volume bonus, capped at 1.0. -/
def assess_performance_impact_core (d : String) : ℚ :=
  let base := performance_keywords.foldl
    (fun acc k => if strContains (strLower d) (strLower k) then acc + 1/10 else acc)
    (0 : ℚ)
  let lines_changed :=
    ((d.splitOn "\n").filter
      (fun l => strStartsWith l "+" || strStartsWith l "-")).length
  let impact := if lines_changed > 500 then base + 3/10
                else if lines_changed > 200 then base + 2/10
                else base
  min impact 1

/-- `assess_performance_impact`: subprocess failure yields the default 0.0. -/
def assess_performance_impact (diff : Except Unit String) : ℚ :=
  match diff with
  | .error _ => 0
  | .ok d => assess_performance_impact_core d

/-- The `recent_deployments` list comprehension of
`analyze_deployment_history`: records whose timestamp (in days) is newer
than `now - 7`. -/
def recent_deployments (now : ℚ) (deployments : List DeploymentRecord) :
    List DeploymentRecord :=
  deployments.filter (fun d => decide (now - 7 < d.timestamp))

/-- `analyze_deployment_history`: 0.0 with no recent records, else the
fraction of recent records whose `status` is `failed`.  (No try/except
wraps this method.) -/
def analyze_deployment_history (now : ℚ)
    (deployments : List DeploymentRecord) : ℚ :=
  let recent := recent_deployments now deployments
  if recent.isEmpty then 0
  else ((recent.filter (fun d => d.status == some "failed")).length : ℚ) /
       (recent.length : ℚ)

/-- Fallback branch of `get_ai_risk_assessment` (the `except` handler):
mean of the five factor scores, canonical 0.3 / 0.7 threshold mapping,
fixed placeholder concerns/mitigations, confidence 0.5. -/
def fallback_assessment (rf : RiskFactors) : RiskAssessment :=
  let overall := (rf.code_complexity + rf.dependency_changes + rf.test_coverage
                  + rf.performance_impact + rf.historical_failures) / 5
  if overall < 3/10 then
    { overall_risk_score := overall, risk_level := "low",
      recommended_strategy := "blue_green",
      key_concerns := ["AI analysis unavailable"],
      mitigation_steps := ["Manual review recommended"], confidence := 1/2 }
  else if overall < 7/10 then
    { overall_risk_score := overall, risk_level := "medium",
      recommended_strategy := "canary",
      key_concerns := ["AI analysis unavailable"],
      mitigation_steps := ["Manual review recommended"], confidence := 1/2 }
  else
    { overall_risk_score := overall, risk_level := "high",
      recommended_strategy := "manual_approval",
      key_concerns := ["AI analysis unavailable"],
      mitigation_steps := ["Manual review recommended"], confidence := 1/2 }

/-- `get_ai_risk_assessment`: `remote` is the outcome of the chat call plus
JSON extraction and parsing (`some a` = parsed assessment, returned as
`json.loads` leaves it, without any clamping; `none` = any exception, which
triggers the deterministic fallback). -/
def get_ai_risk_assessment (remote : Option RiskAssessment)
    (rf : RiskFactors) : RiskAssessment :=
  match remote with
  | some a => a
  | none => fallback_assessment rf

/-- Inputs of one engine run: the two git subprocess outcomes, the file
reader, the clock, the loaded history, and the remote advisory outcome. -/
structure RunEnv where
  nameOnlyOutput : Except Unit String
  diffOutput : Except Unit String
  readF : String → Except Unit String
  now : ℚ
  deployments : List DeploymentRecord
  remote : Option RiskAssessment

/-- The `self.risk_factors` dict built by `calculate_risk_score`. -/
def calculate_risk_factors (e : RunEnv) : RiskFactors :=
  { code_complexity := analyze_code_complexity e.nameOnlyOutput e.readF,
    dependency_changes := check_dependency_changes e.diffOutput,
    test_coverage := evaluate_test_coverage e.nameOnlyOutput,
    performance_impact := assess_performance_impact e.diffOutput,
    historical_failures := analyze_deployment_history e.now e.deployments }

/-- `calculate_risk_score`: compute the factors, then the AI assessment. -/
def calculate_risk_score (e : RunEnv) : RiskAssessment :=
  get_ai_risk_assessment e.remote (calculate_risk_factors e)

/-- The record dict built in `save_deployment_record`: exactly the keys
`timestamp`, `risk_score`, `strategy`, `risk_factors`, `assessment`;
no `status` key is ever written. -/
def mk_deployment_record (now : ℚ) (rf : RiskFactors)
    (a : RiskAssessment) : DeploymentRecord :=
  { timestamp := now, risk_score := a.overall_risk_score,
    strategy := a.recommended_strategy, risk_factors := rf,
    assessment := a, status := none }

/-- History mutation of `save_deployment_record`: append, then keep only
the last 50 entries (`[-50:]`) when the length exceeds 50. -/
def save_deployment_record (deployments : List DeploymentRecord)
    (r : DeploymentRecord) : List DeploymentRecord :=
  let appended := deployments ++ [r]
  if appended.length > 50 then appended.drop (appended.length - 50)
  else appended

/-- Condition of `deployment-history.json` at process start, as
distinguished by `load_deployment_history`: absent, present but not
readable, present but not valid JSON, or valid with some record list. -/
inductive HistoryFile
  | missing
  | unreadable
  | malformed
  | valid (deployments : List DeploymentRecord)

/-- `load_deployment_history`: only `FileNotFoundError` is caught (giving
the empty history); a read error or a JSON decode error propagates out of
the constructor uncaught. -/
def load_deployment_history :
    HistoryFile → Except String (List DeploymentRecord)
  | .missing => .ok []
  | .unreadable => .error "PermissionError"
  | .malformed => .error "json.JSONDecodeError"
  | .valid ds => .ok ds

/-- Path of the persisted history file. -/
def history_path : String := "deployment-history.json"

/-- Primitive file-system steps at which a process interruption can land:
a truncating open (`open(p, 'w')`), writing serialized data to an open
file (`json.dump`), and an atomic rename. -/
inductive FsStep
  | openTrunc (path : String)
  | appendData (path : String) (chunk : String)
  | renameFile (src tgt : String)

/-- A file system: contents per path, `none` = absent. -/
def FileSys : Type := String → Option String

/-- Effect of one primitive step on the file system. -/
def applyStep (fs : FileSys) : FsStep → FileSys
  | .openTrunc p => fun q => if q = p then some "" else fs q
  | .appendData p c => fun q => if q = p then some (((fs p).getD "") ++ c) else fs q
  | .renameFile src tgt =>
      fun q => if q = tgt then fs src else if q = src then none else fs q

/-- Run a sequence of steps. -/
def applySteps (fs : FileSys) (steps : List FsStep) : FileSys :=
  steps.foldl applyStep fs

/-- The write sequence of `save_deployment_record`'s persist step:
`with open('deployment-history.json', 'w') as f: json.dump(history, f)` —
a truncating open of the target itself followed by writing the serialized
history (`serialized` stands for the JSON rendering of the full history). -/
def save_history_write_steps (serialized : String) : List FsStep :=
  [.openTrunc history_path, .appendData history_path serialized]

/-- Modelled from the spec: "write must not leave the persisted state in a
partially-written condition if interrupted (atomic replace semantics)" —
after any prefix of the step sequence (any interruption point), the target
file holds either its original content or the final content. -/
def atomic_replace_semantics (steps : List FsStep) (target : String) : Prop :=
  ∀ (fs : FileSys) (n : Nat),
    applySteps fs (steps.take n) target = fs target ∨
    applySteps fs (steps.take n) target = applySteps fs steps target

/-- A file system whose history file holds some previous content. -/
def fs_old : FileSys :=
  fun p => if p = history_path then some "OLD" else none

/-- `sum(risk_factors.values()) / len(risk_factors)`: arithmetic mean of
the five factor scores. -/
def meanFactors (rf : RiskFactors) : ℚ :=
  (rf.code_complexity + rf.dependency_changes + rf.test_coverage
   + rf.performance_impact + rf.historical_failures) / 5

/-- A factor vector whose mean is exactly 0.3. -/
def boundary03 : RiskFactors := ⟨3/10, 3/10, 3/10, 3/10, 3/10⟩

/-- A factor vector whose mean is exactly 0.7. -/
def boundary07 : RiskFactors := ⟨7/10, 7/10, 7/10, 7/10, 7/10⟩

/-- C1: when the remote advisory path fails, the fallback assessment's
overall score is the arithmetic mean of the five factor scores, and the
risk level / strategy follow the canonical 0.3 / 0.7 thresholds, with the
boundary values landing as score = 0.3 ⇒ medium/canary and
score = 0.7 ⇒ high/manual_approval. -/
theorem fallback_mean_and_thresholds :
    (∀ rf : RiskFactors,
       (get_ai_risk_assessment none rf).overall_risk_score = meanFactors rf) ∧
    (∀ rf : RiskFactors,
       ((get_ai_risk_assessment none rf).risk_level,
        (get_ai_risk_assessment none rf).recommended_strategy) =
         if meanFactors rf < 3/10 then ("low", "blue_green")
         else if meanFactors rf < 7/10 then ("medium", "canary")
         else ("high", "manual_approval")) ∧
    (meanFactors boundary03 = 3/10 ∧
     (get_ai_risk_assessment none boundary03).risk_level = "medium" ∧
     (get_ai_risk_assessment none boundary03).recommended_strategy = "canary") ∧
    (meanFactors boundary07 = 7/10 ∧
     (get_ai_risk_assessment none boundary07).risk_level = "high" ∧
     (get_ai_risk_assessment none boundary07).recommended_strategy
       = "manual_approval") := by
  refine ⟨?_, ?_, ?_, ?_⟩
  · intro rf
    simp only [get_ai_risk_assessment, fallback_assessment, meanFactors]
    split_ifs <;> rfl
  · intro rf
    simp only [get_ai_risk_assessment, fallback_assessment, meanFactors]
    split_ifs <;> rfl
  · refine ⟨by norm_num [meanFactors, boundary03], ?_, ?_⟩ <;>
      norm_num [get_ai_risk_assessment, fallback_assessment, boundary03]
  · refine ⟨by norm_num [meanFactors, boundary07], ?_, ?_⟩ <;>
      norm_num [get_ai_risk_assessment, fallback_assessment, boundary07]

/-- C3: the per-run append-then-truncate keeps the history at length at
most 50 (exactly `min (n+1) 50`), and the result is a suffix of the
appended list, so eviction removes only the oldest records and keeps the
retained most-recent records in their relative order. -/
theorem save_record_fifo_bounded :
    ∀ (ds : List DeploymentRecord) (r : DeploymentRecord),
      (save_deployment_record ds r).length ≤ 50 ∧
      (save_deployment_record ds r).length = min (ds.length + 1) 50 ∧
      (save_deployment_record ds r) <:+ (ds ++ [r]) := by
  intro ds r
  simp only [save_deployment_record]
  split
  · refine ⟨?_, ?_, List.drop_suffix _ _⟩ <;>
      · simp only [List.length_drop, List.length_append, List.length_cons,
          List.length_nil] at *
        omega
  · refine ⟨?_, ?_, List.suffix_refl _⟩ <;>
      · simp only [List.length_append, List.length_cons, List.length_nil] at *
        omega

/-- C4 counterexample: a present but corrupt history file does not load as
the empty history — the JSON decode error propagates uncaught. -/
theorem load_malformed_not_empty :
    load_deployment_history .malformed = .error "json.JSONDecodeError" ∧
    load_deployment_history .malformed ≠ .ok ([] : List DeploymentRecord) := by
  refine ⟨rfl, ?_⟩
  simp [load_deployment_history]

/-- C4 amended: only a missing history file yields the empty history (and a
valid file its contents); unreadable or corrupt contents raise an uncaught
error instead of being treated as empty. -/
theorem load_missing_empty_else_error :
    load_deployment_history .missing = .ok ([] : List DeploymentRecord) ∧
    (∀ ds, load_deployment_history (.valid ds) = .ok ds) ∧
    (∃ e, load_deployment_history .malformed = .error e) ∧
    (∃ e, load_deployment_history .unreadable = .error e) :=
  ⟨rfl, fun _ => rfl, ⟨_, rfl⟩, ⟨_, rfl⟩⟩

/-- Outcome of `git diff HEAD~1` when no previous revision exists: git
exits nonzero, so `subprocess.check_output` raises `CalledProcessError`. -/
def first_commit_git : Except Unit String := .error ()

/-- C5 counterexample: on a first commit the complexity calculator does not
return zero risk; it catches the subprocess error and returns its failure
default 0.5. -/
theorem first_commit_complexity_not_zero :
    analyze_code_complexity first_commit_git (fun _ => .error ()) = 1/2 ∧
    ((1 : ℚ)/2) ≠ 0 := by
  refine ⟨rfl, by norm_num⟩

/-- C5 amended: when no previous revision exists the git diff invocation
fails, and each calculator returns its documented failure default —
complexity 0.5, dependency 0.0, test-coverage 0.5, performance 0.0 —
rather than uniformly zero risk. -/
theorem first_commit_failure_defaults :
    (∀ readF, analyze_code_complexity first_commit_git readF = 1/2) ∧
    check_dependency_changes first_commit_git = 0 ∧
    evaluate_test_coverage first_commit_git = 1/2 ∧
    assess_performance_impact first_commit_git = 0 :=
  ⟨fun _ => rfl, rfl, rfl, rfl⟩

/-- C6 counterexample: with changed files `app.py` (source-like) and
`test_app.py` (test-like) the coverage risk is 0.0 although one
source-like file changed, refuting the "only if zero source-like files"
direction. -/
theorem coverage_zero_with_source_file :
    evaluate_test_coverage_core ["app.py", "test_app.py"] = 0 ∧
    (["app.py", "test_app.py"].filter
      (fun f => !(isTestLike f) && hasSourceExt f)).length = 1 := by
  have h1 : ["app.py", "test_app.py"].filter (fun f => isTestLike f)
      = ["test_app.py"] := by decide
  have h2 : ["app.py", "test_app.py"].filter
      (fun f => !(isTestLike f) && hasSourceExt f) = ["app.py"] := by decide
  constructor
  · simp only [evaluate_test_coverage_core, h1, h2]
    norm_num
  · rw [h2]
    rfl

/-- Accumulating `if p x then acc + c else acc` over a list adds `c` once
per element satisfying `p`. -/
theorem foldl_if_add {α : Type} (c : ℚ) (p : α → Bool) :
    ∀ (l : List α) (a : ℚ),
      l.foldl (fun acc f => if p f then acc + c else acc) a =
        a + c * ((l.filter p).length : ℚ)
  | [], a => by simp
  | x :: xs, a => by
    by_cases h : p x
    · simp only [List.foldl_cons, h, if_true, List.filter_cons,
        foldl_if_add c p xs, List.length_cons]
      push_cast
      ring
    · simp [List.foldl_cons, h, List.filter_cons, foldl_if_add c p xs]

/-- C6 amended: the test-coverage risk is 0.0 exactly when the number of
source-like changed files is at most the number of test-like changed
files — in particular when zero source-like files changed, but also with
source files present once test files are at least as many. -/
theorem coverage_zero_iff_tests_cover :
    ∀ files : List String,
      (evaluate_test_coverage_core files = 0 ↔
        (files.filter (fun f => !(isTestLike f) && hasSourceExt f)).length ≤
        (files.filter (fun f => isTestLike f)).length) := by
  intro files
  simp only [evaluate_test_coverage_core]
  split
  · next h =>
    have hs0 : (files.filter (fun f => !(isTestLike f) && hasSourceExt f)) = [] := by
      simpa [List.isEmpty_iff] using h
    simp [hs0]
  · next h =>
    have hs : 0 < ((files.filter
        (fun f => !(isTestLike f) && hasSourceExt f)).length : ℚ) := by
      have : files.filter (fun f => !(isTestLike f) && hasSourceExt f) ≠ [] := by
        simpa [List.isEmpty_iff] using h
      exact_mod_cast Nat.pos_of_ne_zero (fun hz => this (List.eq_nil_of_length_eq_zero hz))
    rw [max_eq_left_iff, sub_nonpos, one_le_div hs, Nat.cast_le]

/-- C7: the dependency-change score equals
`min(1, 0.3 × (number of manifest filenames occurring in the diff)
      + 0.2 × (any version marker occurring in the diff))`. -/
theorem dependency_score_formula :
    ∀ d : String,
      check_dependency_changes (.ok d) =
        min 1 ((3/10) *
                ((high_risk_files.filter (fun f => strContains d f)).length : ℚ)
               + (2/10) *
                (if version_markers.any (fun m => strContains d m)
                 then 1 else 0)) := by
  intro d
  simp only [check_dependency_changes]
  rw [foldl_if_add, min_comm]
  by_cases h : version_markers.any (fun m => strContains d m) <;>
    simp only [h, if_true, if_false, Bool.false_eq_true] <;>
    · congr 1
      ring

/-- C8: the historical-failure score is computed over exactly the records
of the trailing seven days: 0.0 when there are none, else the number of
recent records with status `failed` divided by the number of recent
records. -/
theorem history_failure_rate_formula :
    ∀ (now : ℚ) (ds : List DeploymentRecord),
      analyze_deployment_history now ds =
        if recent_deployments now ds = [] then 0
        else ((recent_deployments now ds).countP
                (fun d => d.status == some "failed") : ℚ) /
             ((recent_deployments now ds).length : ℚ) := by
  intro now ds
  rw [List.countP_eq_length_filter]
  simp only [analyze_deployment_history]
  by_cases h : recent_deployments now ds = [] <;>
    simp [h, List.isEmpty_iff]

/-- The fallback assessment's overall score is the factor mean, in every
threshold branch. -/
theorem fallback_overall_eq_mean (rf : RiskFactors) :
    (fallback_assessment rf).overall_risk_score = meanFactors rf := by
  simp only [fallback_assessment, meanFactors]
  split_ifs <;> rfl

/-- The complexity score is clamped into the unit interval. -/
theorem complexity_in_unit (nameOnly : Except Unit String)
    (readF : String → Except Unit String) :
    0 ≤ analyze_code_complexity nameOnly readF ∧
    analyze_code_complexity nameOnly readF ≤ 1 := by
  cases nameOnly with
  | error e => exact ⟨by norm_num [analyze_code_complexity],
      by norm_num [analyze_code_complexity]⟩
  | ok out =>
    simp only [analyze_code_complexity, analyze_code_complexity_core]
    exact ⟨le_min (by positivity) zero_le_one, min_le_right _ _⟩

/-- The dependency score is clamped into the unit interval. -/
theorem dependency_in_unit (diff : Except Unit String) :
    0 ≤ check_dependency_changes diff ∧ check_dependency_changes diff ≤ 1 := by
  cases diff with
  | error e => exact ⟨le_refl _, by norm_num [check_dependency_changes]⟩
  | ok d =>
    simp only [check_dependency_changes, foldl_if_add]
    constructor
    · apply le_min _ zero_le_one
      split_ifs <;> positivity
    · exact min_le_right _ _

/-- The coverage risk lies in the unit interval. -/
theorem coverage_in_unit (nameOnly : Except Unit String) :
    0 ≤ evaluate_test_coverage nameOnly ∧ evaluate_test_coverage nameOnly ≤ 1 := by
  cases nameOnly with
  | error e => exact ⟨by norm_num [evaluate_test_coverage],
      by norm_num [evaluate_test_coverage]⟩
  | ok out =>
    simp only [evaluate_test_coverage, evaluate_test_coverage_core]
    split
    · norm_num
    · refine ⟨le_max_left _ _, max_le zero_le_one ?_⟩
      have : (0 : ℚ) ≤
          ((out.splitOn "\n").filter (fun f => isTestLike f)).length /
          ((out.splitOn "\n").filter
            (fun f => !(isTestLike f) && hasSourceExt f)).length := by
        positivity
      linarith

/-- The performance score is clamped into the unit interval. -/
theorem performance_in_unit (diff : Except Unit String) :
    0 ≤ assess_performance_impact diff ∧ assess_performance_impact diff ≤ 1 := by
  cases diff with
  | error e => exact ⟨le_refl _, by norm_num [assess_performance_impact]⟩
  | ok d =>
    simp only [assess_performance_impact, assess_performance_impact_core,
      foldl_if_add]
    constructor
    · apply le_min _ zero_le_one
      split_ifs <;> positivity
    · exact min_le_right _ _

/-- The historical failure rate lies in the unit interval. -/
theorem history_rate_in_unit (now : ℚ) (ds : List DeploymentRecord) :
    0 ≤ analyze_deployment_history now ds ∧
    analyze_deployment_history now ds ≤ 1 := by
  simp only [analyze_deployment_history]
  split
  · norm_num
  · next h =>
    have hpos : 0 < ((recent_deployments now ds).length : ℚ) := by
      have : recent_deployments now ds ≠ [] := by
        simpa [List.isEmpty_iff] using h
      exact_mod_cast Nat.pos_of_ne_zero
        (fun hz => this (List.eq_nil_of_length_eq_zero hz))
    constructor
    · positivity
    · rw [div_le_one hpos]
      exact_mod_cast List.length_filter_le _ _

/-- A parsed remote verdict carrying an out-of-range score. -/
def unclamped_remote : RiskAssessment :=
  { overall_risk_score := 2, risk_level := "high",
    recommended_strategy := "manual_approval", key_concerns := [],
    mitigation_steps := [], confidence := 1 }

/-- A run in which the remote advisory call succeeds and its parsed JSON
carries `overall_risk_score = 2.0`. -/
def bad_remote_env : RunEnv :=
  { nameOnlyOutput := .error (), diffOutput := .error (),
    readF := fun _ => .error (), now := 0, deployments := [],
    remote := some unclamped_remote }

/-- C2 counterexample: on the remote path the parsed assessment is
propagated without clamping, so a run can end with an overall risk score
of 2.0, outside the unit interval. -/
theorem remote_path_unclamped :
    (calculate_risk_score bad_remote_env).overall_risk_score = 2 ∧
    ¬ ((calculate_risk_score bad_remote_env).overall_risk_score ≤ 1) := by
  refine ⟨rfl, ?_⟩
  norm_num [calculate_risk_score, bad_remote_env, get_ai_risk_assessment,
    unclamped_remote]

/-- C2 amended: every one of the five computed factor scores lies in
[0, 1] (each calculator clamps or is structurally bounded, failure
defaults included), and on the fallback aggregation path the overall risk
score also lies in [0, 1]; the remote path performs no clamping. -/
theorem risk_factors_bounded :
    ∀ e : RunEnv,
      (0 ≤ (calculate_risk_factors e).code_complexity ∧
         (calculate_risk_factors e).code_complexity ≤ 1) ∧
      (0 ≤ (calculate_risk_factors e).dependency_changes ∧
         (calculate_risk_factors e).dependency_changes ≤ 1) ∧
      (0 ≤ (calculate_risk_factors e).test_coverage ∧
         (calculate_risk_factors e).test_coverage ≤ 1) ∧
      (0 ≤ (calculate_risk_factors e).performance_impact ∧
         (calculate_risk_factors e).performance_impact ≤ 1) ∧
      (0 ≤ (calculate_risk_factors e).historical_failures ∧
         (calculate_risk_factors e).historical_failures ≤ 1) ∧
      (0 ≤ (get_ai_risk_assessment none
              (calculate_risk_factors e)).overall_risk_score ∧
         (get_ai_risk_assessment none
            (calculate_risk_factors e)).overall_risk_score ≤ 1) := by
  intro e
  have h1 := complexity_in_unit e.nameOnlyOutput e.readF
  have h2 := dependency_in_unit e.diffOutput
  have h3 := coverage_in_unit e.nameOnlyOutput
  have h4 := performance_in_unit e.diffOutput
  have h5 := history_rate_in_unit e.now e.deployments
  refine ⟨h1, h2, h3, h4, h5, ?_⟩
  show 0 ≤ (fallback_assessment _).overall_risk_score ∧
    (fallback_assessment _).overall_risk_score ≤ 1
  rw [fallback_overall_eq_mean]
  simp only [meanFactors, calculate_risk_factors]
  obtain ⟨a1, b1⟩ := h1
  obtain ⟨a2, b2⟩ := h2
  obtain ⟨a3, b3⟩ := h3
  obtain ⟨a4, b4⟩ := h4
  obtain ⟨a5, b5⟩ := h5
  constructor
  · positivity
  · rw [div_le_one (by norm_num : (0:ℚ) < 5)]
    linarith

/-- C9 counterexample: the persist step opens the history file itself with
truncation before writing, so interrupting after the first primitive step
leaves the file empty — neither the old nor the new content — violating
atomic-replace semantics. -/
theorem save_history_not_atomic :
    ¬ atomic_replace_semantics (save_history_write_steps "NEW") history_path ∧
    applySteps fs_old ((save_history_write_steps "NEW").take 1) history_path
      = some "" ∧
    applySteps fs_old (save_history_write_steps "NEW") history_path
      = some "NEW" ∧
    fs_old history_path = some "OLD" := by
  have h1 : applySteps fs_old ((save_history_write_steps "NEW").take 1)
      history_path = some "" := by rfl
  have h2 : applySteps fs_old (save_history_write_steps "NEW") history_path
      = some "NEW" := by rfl
  have h3 : fs_old history_path = some "OLD" := by rfl
  refine ⟨?_, h1, h2, h3⟩
  intro hA
  rcases hA fs_old 1 with h | h
  · exact absurd (h1.symm.trans (h.trans h3)) (by decide)
  · exact absurd (h1.symm.trans (h.trans h2)) (by decide)

/-- C9 amended: the persist step synchronously rewrites the history file in
place — after the full write sequence the file holds exactly the complete
serialized history — but it is a truncate-then-write, not an atomic
replace. -/
theorem save_history_full_write :
    ∀ (serialized : String) (fs : FileSys),
      applySteps fs (save_history_write_steps serialized) history_path
        = some serialized := by
  intro serialized fs
  simp [applySteps, save_history_write_steps, applyStep]

/-- C10: every record the engine itself writes has no `status` key (only
`timestamp`, `risk_score`, `strategy`, `risk_factors`, `assessment`), and
consequently a history consisting only of such records always yields a
historical-failure score of 0.0, recent records present or not. -/
theorem engine_records_no_status :
    (∀ (now : ℚ) (rf : RiskFactors) (a : RiskAssessment),
       (mk_deployment_record now rf a).status = none) ∧
    (∀ (now : ℚ) (ds : List DeploymentRecord),
       (∀ r ∈ ds, r.status = none) →
         analyze_deployment_history now ds = 0) := by
  constructor
  · intro now rf a
    rfl
  · intro now ds hall
    simp only [analyze_deployment_history]
    have hfail : (recent_deployments now ds).filter
        (fun d => d.status == some "failed") = [] := by
      rw [List.filter_eq_nil_iff]
      intro d hd
      have hds : d ∈ ds := List.mem_of_mem_filter hd
      simp [hall d hds]
    split
    · rfl
    · rw [hfail]
      simp

/-- Sample factor values for the C10 witness. -/
def sample_factors : RiskFactors := ⟨0, 0, 0, 0, 0⟩

/-- Sample assessment for the C10 witness. -/
def sample_assessment : RiskAssessment :=
  ⟨0, "low", "blue_green", [], [], 1/2⟩

/-- A one-record history written by the engine itself, recent at time 10. -/
def engine_history : List DeploymentRecord :=
  [mk_deployment_record 9 sample_factors sample_assessment]

/-- C10 witness: a concrete engine-written history with a recent record has
all statuses absent and a historical-failure score of 0. -/
theorem engine_records_no_status_witness :
    (∀ r ∈ engine_history, r.status = none) ∧
    analyze_deployment_history 10 engine_history = 0 :=
  ⟨by decide, engine_records_no_status.2 10 engine_history (by decide)⟩

end DeploymentDecision
